import Mathlib

/-!
# Verification of the `@texel/color` conversion core

A shallow embedding of the conversion router and OKLab transform kernels of
`src/core.js`, together with the color-space descriptors of `src/spaces.js`
and the `src/spaces/*.js` modules, over exact rational arithmetic.

Modelling conventions:

* JS arrays holding color coordinates are modelled as `Buf := List ℚ`;
  reading out of range yields the default `0`, writing past the end extends
  the list (mirroring JS array growth; the code only ever writes indices
  0, 1, 2 in ascending order, so the padding is never observed).
* JS object identity (`===` on color-space objects) is modelled by a
  dedicated `ref : Nat` field on each descriptor; distinct space objects
  carry distinct `ref` values.
* Numeric primitives of the JS runtime (`Math.cbrt`, `Math.pow`,
  `Math.cos`, `Math.sin`) are irrational-valued and appear as explicit
  function parameters of the model; no settled claim depends on their
  values.  The real-number semantics of `Math.cbrt` is captured by
  `realCbrt` below.
* `throw` is modelled by `Except (String × Buf) Buf`: an error carries the
  thrown message and the state of the output buffer at the moment of the
  throw.
-/

/-- A color coordinate buffer (a JS numeric array). -/
abbrev Buf : Type := List ℚ

/-- Read index `i` of a buffer (JS out-of-range reads are modelled as `0`). -/
def bget (b : Buf) (i : Nat) : ℚ := List.getD b i 0

/-- Write index `i` of a buffer, extending the buffer when `i` is past the
end (as JS array assignment does; the padding value is never observed by
the embedded code, which always writes indices 0,1,2 in ascending order). -/
def bset (b : Buf) (i : Nat) (v : ℚ) : Buf :=
  if i < List.length b then List.set b i v
  else (b ++ List.replicate (i - List.length b) 0) ++ [v]

/-- A 3-component value (the mathematical content of a `vec3`). -/
abbrev Vec3q : Type := ℚ × ℚ × ℚ

/-- A 3×3 matrix as three rows, as in `core.js` (`Matrix3x3`). -/
abbrev Mat3 : Type := Vec3q × Vec3q × Vec3q

/-- Read the three leading components of a buffer. -/
def read3 (b : Buf) : Vec3q := (bget b 0, bget b 1, bget b 2)

/-- Write the three leading components of a buffer, in ascending index
order, exactly as every mutation in `core.js` does. -/
def write3 (b : Buf) (v : Vec3q) : Buf :=
  bset (bset (bset b 0 v.1) 1 v.2.1) 2 v.2.2

/-- `dot3` of `core.js` (line 64). -/
def dot3 (a b : Vec3q) : ℚ := a.1 * b.1 + a.2.1 * b.2.1 + a.2.2 * b.2.2

/-- Row-wise application of a 3×3 matrix, the mathematical content of
`transform` (`core.js` lines 105-113): component `i` is `dot3 input M[i]`. -/
def applyMat (M : Mat3) (v : Vec3q) : Vec3q :=
  (dot3 v M.1, dot3 v M.2.1, dot3 v M.2.2)

/-- `transform` of `core.js` (lines 105-113): the three dot products are
computed first, then written into `out` (so `out` may alias `input`). -/
def transform (input : Buf) (M : Mat3) (out : Buf) : Buf :=
  write3 out (applyMat M (read3 input))

/-- `vec3Copy` of `core.js` (lines 115-119). -/
def vec3Copy (input output : Buf) : Buf :=
  write3 output (read3 input)

/-- Element-wise cube, the content of `cubed3` (`core.js` lines 49-56). -/
def cube3 (v : Vec3q) : Vec3q :=
  (v.1 * v.1 * v.1, v.2.1 * v.2.1 * v.2.1, v.2.2 * v.2.2 * v.2.2)

/-- `cubed3` of `core.js` (lines 49-56): cubes the three leading
components of the buffer in place. -/
def cubed3 (b : Buf) : Buf := write3 b (cube3 (read3 b))

/-- Element-wise application of a scalar function (used for `Math.cbrt`). -/
def map3 (f : ℚ → ℚ) (v : Vec3q) : Vec3q := (f v.1, f v.2.1, f v.2.2)

/-- `cbrt3` of `core.js` (lines 58-62), with `Math.cbrt` as the parameter
`cbrt` (a JS runtime primitive; see `realCbrt` for its real semantics). -/
def cbrt3 (cbrt : ℚ → ℚ) (b : Buf) : Buf := write3 b (map3 cbrt (read3 b))

/-- Application of a pure 3-component function to a buffer in place; this
is how the space-supplied `toBase` / `fromBase` / `toXYZ` / `fromXYZ`
functions are invoked by `convert` (always as `f(out, out)`). -/
def applyFn3 (f : Vec3q → Vec3q) (b : Buf) : Buf := write3 b (f (read3 b))

-- ### Basic buffer lemmas

theorem write3_eq (b : Buf) (v : Vec3q) :
    write3 b v = v.1 :: v.2.1 :: v.2.2 :: List.drop 3 b := by
  match b with
  | [] => rfl
  | [_] => rfl
  | [_, _] => rfl
  | _ :: _ :: _ :: _ => simp [write3, bset]

theorem read3_write3 (b : Buf) (v : Vec3q) : read3 (write3 b v) = v := by
  rw [write3_eq]; rfl

theorem write3_write3 (b : Buf) (v w : Vec3q) :
    write3 (write3 b v) w = write3 b w := by
  rw [write3_eq b v, write3_eq, write3_eq b w]
  rfl

theorem bget_cons_succ (x : ℚ) (t : Buf) (n : Nat) :
    bget (x :: t) (n + 1) = bget t n := rfl

theorem bget_write3_high (b : Buf) (v : Vec3q) (i : Nat) (h : 3 ≤ i) :
    bget (write3 b v) i = bget b i := by
  obtain ⟨k, hk⟩ : ∃ k, i = k + 3 := ⟨i - 3, by omega⟩
  subst hk
  rw [write3_eq]
  show bget (List.drop 3 b) k = bget b (k + 3)
  match b with
  | [] => cases k <;> rfl
  | [_] => simp [bget, List.getD]
  | [_, _] => simp [bget, List.getD]
  | _ :: _ :: _ :: t => rfl

theorem read3_vec3Copy (input out : Buf) :
    read3 (vec3Copy input out) = read3 input := read3_write3 _ _

-- ### Color space descriptors

/-- The `ChromaticAdaptation` pair of `core.js` (lines 23-27).  The JS
fields are named `from` and `to`; `from` is a Lean keyword, so they appear
here as `fromM` and `toM`. -/
structure ChromaticAdaptation where
  fromM : Mat3
  toM : Mat3

/-- The `ColorSpace` descriptor of `core.js` (lines 29-40).  The extra
`ref : Nat` field models JS object identity: `convert` compares space
objects with `==` / `===`, and distinct descriptor objects carry distinct
`ref` values.  The optional `toXYZ` / `fromXYZ` function fields are
checked by `convert` (lines 386, 407) before the matrix fields; the
optional `toBase` / `fromBase` / `toXYZ` / `fromXYZ` functions are pure
3-component maps (every such function in the repository writes exactly the
three leading components of its output buffer). -/
inductive ColorSpace where
  | mk
      (ref : Nat)
      (id : String)
      (toXYZ_M fromXYZ_M toLMS_M fromLMS_M : Option Mat3)
      (toXYZ fromXYZ : Option (Vec3q → Vec3q))
      (adapt : Option ChromaticAdaptation)
      (base : Option ColorSpace)
      (toBase fromBase : Option (Vec3q → Vec3q))

def ColorSpace.ref : ColorSpace → Nat
  | .mk r _ _ _ _ _ _ _ _ _ _ _ => r

def ColorSpace.id : ColorSpace → String
  | .mk _ i _ _ _ _ _ _ _ _ _ _ => i

def ColorSpace.toXYZ_M : ColorSpace → Option Mat3
  | .mk _ _ m _ _ _ _ _ _ _ _ _ => m

def ColorSpace.fromXYZ_M : ColorSpace → Option Mat3
  | .mk _ _ _ m _ _ _ _ _ _ _ _ => m

def ColorSpace.toLMS_M : ColorSpace → Option Mat3
  | .mk _ _ _ _ m _ _ _ _ _ _ _ => m

def ColorSpace.fromLMS_M : ColorSpace → Option Mat3
  | .mk _ _ _ _ _ m _ _ _ _ _ _ => m

def ColorSpace.toXYZ : ColorSpace → Option (Vec3q → Vec3q)
  | .mk _ _ _ _ _ _ f _ _ _ _ _ => f

def ColorSpace.fromXYZ : ColorSpace → Option (Vec3q → Vec3q)
  | .mk _ _ _ _ _ _ _ f _ _ _ _ => f

def ColorSpace.adapt : ColorSpace → Option ChromaticAdaptation
  | .mk _ _ _ _ _ _ _ _ a _ _ _ => a

def ColorSpace.base : ColorSpace → Option ColorSpace
  | .mk _ _ _ _ _ _ _ _ _ b _ _ => b

def ColorSpace.toBase : ColorSpace → Option (Vec3q → Vec3q)
  | .mk _ _ _ _ _ _ _ _ _ _ f _ => f

def ColorSpace.fromBase : ColorSpace → Option (Vec3q → Vec3q)
  | .mk _ _ _ _ _ _ _ _ _ _ _ f => f

/-- JS object identity (`fromSpace == toSpace`, `fromBaseSpace ===
toBaseSpace`, `toBaseSpace !== toSpace` in `core.js`), modelled through
the `ref` field. -/
def refEq (a b : ColorSpace) : Bool := a.ref == b.ref

theorem refEq_self (a : ColorSpace) : refEq a a = true := by
  simp [refEq]

/-- The base-resolved form of a space: `toSpace.base ?? toSpace`
(`core.js` line 331); for the source this is also the space left in the
`fromSpace` variable after the descent of lines 322-325. -/
def baseOf (s : ColorSpace) : ColorSpace := s.base.getD s

-- ### Conversion matrices
--
-- `src/conversion_matrices.js` is not under `src/` (only its importers
-- are).  The spec treats the numeric matrix data as an external
-- collaborator ("the core consumes a space as an opaque descriptor") and
-- fixes no numeric entries, and no claim below depends on the entries.

/-- Modelled from the spec: the OKLab→LMS matrix of the missing
`conversion_matrices.js`; the spec fixes no numeric entries and no claim
depends on them, so a nominal value is used. -/
def OKLab_to_LMS_M : Mat3 := ((1, 0, 0), (0, 1, 0), (0, 0, 1))

/-- Modelled from the spec: the LMS→OKLab matrix of the missing
`conversion_matrices.js`; nominal value, see `OKLab_to_LMS_M`. -/
def LMS_to_OKLab_M : Mat3 := ((1, 0, 0), (0, 1, 0), (0, 0, 1))

/-- Modelled from the spec: the XYZ→LMS matrix of the missing
`conversion_matrices.js` (the `XYZ.toLMS_M` used at `core.js` line 406);
nominal value, see `OKLab_to_LMS_M`. -/
def XYZ_to_LMS_M : Mat3 := ((1, 0, 0), (0, 1, 0), (0, 0, 1))

/-- Modelled from the spec: the LMS→XYZ matrix of the missing
`conversion_matrices.js` (the `XYZ.fromLMS_M` used at `core.js` line 361);
nominal value, see `OKLab_to_LMS_M`. -/
def LMS_to_XYZ_M : Mat3 := ((1, 0, 0), (0, 1, 0), (0, 0, 1))

-- ### OKLab transform kernels (`core.js` lines 49-94)

/-- `OKLab_to` of `core.js` (lines 75-79): transform by the OKLab→LMS
matrix into `out`, cube `out` in place, then transform `out` by the
supplied LMS→output matrix in place. -/
def OKLab_to (OKLab : Buf) (LMS_to_output : Mat3) (out : Buf) : Buf :=
  let out := transform OKLab OKLab_to_LMS_M out
  let out := cubed3 out
  transform out LMS_to_output out

/-- `OKLab_from` of `core.js` (lines 90-94), with the `Math.cbrt`
primitive passed as `cbrt`: transform by the supplied input→LMS matrix
into `out`, take cube roots in place, then transform by the fixed
LMS→OKLab matrix in place. -/
def OKLab_from (cbrt : ℚ → ℚ) (input : Buf) (input_to_LMS : Mat3) (out : Buf) : Buf :=
  let out := transform input input_to_LMS out
  let out := cbrt3 cbrt out
  transform out LMS_to_OKLab_M out

/-- The real-number semantics of JS `Math.cbrt`: the real, sign-preserving
cube root, defined for negative arguments. -/
noncomputable def realCbrt (x : ℝ) : ℝ :=
  if x < 0 then -((-x) ^ ((1 : ℝ) / 3)) else x ^ ((1 : ℝ) / 3)

-- ### The conversion router (`core.js` lines 309-429)

/-- The source-base descent of `convert` (`core.js` lines 322-325): when
`fromSpace.base` is set, `fromSpace.toBase(out, out)` is applied and the
base becomes the new source.  When `base` is set but `toBase` is absent,
the JS call `fromSpace.toBase(out, out)` raises a `TypeError`; the error
carries the buffer state at that point. -/
def descendSource (fromSpace : ColorSpace) (out : Buf) :
    Except (String × Buf) (ColorSpace × Buf) :=
  match fromSpace.base with
  | none => .ok (fromSpace, out)
  | some b =>
    match fromSpace.toBase with
    | some f => .ok (b, applyFn3 f out)
    | none => .error ("fromSpace.toBase is not a function", out)

/-- The XYZ-hub section of `convert` (`core.js` lines 383-415), entered
with the `throughXYZ` flag set: source→XYZ (skipped when `xyzIn`),
whitepoint adaptation of both endpoints, then XYZ→target (skipped when
`xyzOut`; routed through the OKLab bridge when `outputOklab`). -/
def xyzStage (cbrt : ℚ → ℚ) (fromBaseSpace toBaseSpace : ColorSpace)
    (xyzIn xyzOut outputOklab : Bool) (out : Buf) :
    Except (String × Buf) Buf :=
  let step1 : Except (String × Buf) Buf :=
    if xyzIn then .ok out
    else
      match fromBaseSpace.toXYZ with
      | some f => .ok (applyFn3 f out)
      | none =>
        match fromBaseSpace.toXYZ_M with
        | some M => .ok (transform out M out)
        | none => .error ("no toXYZ or toXYZ_M on " ++ fromBaseSpace.id, out)
  match step1 with
  | .error e => .error e
  | .ok out =>
    let out := match fromBaseSpace.adapt with
      | some a => transform out a.toM out
      | none => out
    let out := match toBaseSpace.adapt with
      | some a => transform out a.fromM out
      | none => out
    if xyzOut then .ok out
    else if outputOklab then .ok (OKLab_from cbrt out XYZ_to_LMS_M out)
    else
      match toBaseSpace.fromXYZ with
      | some f => .ok (applyFn3 f out)
      | none =>
        match toBaseSpace.fromXYZ_M with
        | some M => .ok (transform out M out)
        | none => .error ("no fromXYZ or fromXYZ_M on " ++ toBaseSpace.id, out)

/-- The routing section of `convert` for distinct base spaces (`core.js`
lines 342-416): a direct OKLab bridge when one endpoint is the OKLab
space and the other exposes an LMS matrix, otherwise the XYZ hub. -/
def hubRoute (cbrt : ℚ → ℚ) (fromBaseSpace toBaseSpace : ColorSpace) (out : Buf) :
    Except (String × Buf) Buf :=
  if fromBaseSpace.id == "oklab" then
    match toBaseSpace.fromLMS_M with
    | some mat => .ok (OKLab_to out mat out)
    | none =>
      xyzStage cbrt fromBaseSpace toBaseSpace true (toBaseSpace.id == "xyz")
        false (OKLab_to out LMS_to_XYZ_M out)
  else if toBaseSpace.id == "oklab" then
    match fromBaseSpace.toLMS_M with
    | some mat => .ok (OKLab_from cbrt out mat out)
    | none =>
      xyzStage cbrt fromBaseSpace toBaseSpace (fromBaseSpace.id == "xyz")
        (toBaseSpace.id == "xyz") true out
  else
    xyzStage cbrt fromBaseSpace toBaseSpace (fromBaseSpace.id == "xyz")
      (toBaseSpace.id == "xyz") false out

/-- `convert` of `core.js` (lines 309-429), with `Math.cbrt` passed as
`cbrt` and the two space arguments as `Option` (a JS caller may omit
them).  The input is copied into `out` before the arguments are
validated; an error result carries the buffer state at the throw. -/
def convert (cbrt : ℚ → ℚ) (input : Buf)
    (fromSpace0 toSpace0 : Option ColorSpace) (out0 : Buf) :
    Except (String × Buf) Buf :=
  let out := vec3Copy input out0
  match fromSpace0 with
  | none => .error ("must specify a fromSpace", out)
  | some fromSpace =>
    match toSpace0 with
    | none => .error ("must specify a toSpace", out)
    | some toSpace =>
      if refEq fromSpace toSpace then .ok out
      else
        match descendSource fromSpace out with
        | .error e => .error e
        | .ok (fromBaseSpace, out) =>
          let toBaseSpace := toSpace.base.getD toSpace
          if fromBaseSpace.base.isSome || toBaseSpace.base.isSome then
            .error ("Currently only base of depth=1 is supported", out)
          else
            match
              (if refEq fromBaseSpace toBaseSpace then .ok out
               else hubRoute cbrt fromBaseSpace toBaseSpace out :
                Except (String × Buf) Buf) with
            | .error e => .error e
            | .ok out =>
              if refEq toBaseSpace toSpace then .ok out
              else
                match toSpace.fromBase with
                | some f => .ok (applyFn3 f out)
                | none =>
                  .error ("could not transform " ++ toBaseSpace.id ++
                    " to " ++ toSpace.id, out)

-- ### Pure core of the router
--
-- Every mutation in `convert` overwrites exactly the three leading
-- components of the working buffer, so the router factors through a pure
-- function on 3-component values.  The definitions below restate each
-- stage on `Vec3q`; the `_factor` lemmas prove the factorization.

/-- Pure content of `OKLab_to`. -/
def OKLab_toP (M : Mat3) (v : Vec3q) : Vec3q :=
  applyMat M (cube3 (applyMat OKLab_to_LMS_M v))

/-- Pure content of `OKLab_from`. -/
def OKLab_fromP (cbrt : ℚ → ℚ) (M : Mat3) (v : Vec3q) : Vec3q :=
  applyMat LMS_to_OKLab_M (map3 cbrt (applyMat M v))

theorem OKLab_to_factor (v : Buf) (M : Mat3) (out : Buf) (w : Vec3q) :
    OKLab_to v M (write3 out w) = write3 out (OKLab_toP M (read3 v)) := by
  simp [OKLab_to, OKLab_toP, transform, cubed3, read3_write3, write3_write3]

theorem OKLab_from_factor (cbrt : ℚ → ℚ) (v : Buf) (M : Mat3) (out : Buf) (w : Vec3q) :
    OKLab_from cbrt v M (write3 out w) =
      write3 out (OKLab_fromP cbrt M (read3 v)) := by
  simp [OKLab_from, OKLab_fromP, transform, cbrt3, read3_write3, write3_write3]

/-- Pure content of `descendSource`. -/
def descendSourceP (fromSpace : ColorSpace) (v : Vec3q) :
    Except (String × Vec3q) (ColorSpace × Vec3q) :=
  match fromSpace.base with
  | none => .ok (fromSpace, v)
  | some b =>
    match fromSpace.toBase with
    | some f => .ok (b, f v)
    | none => .error ("fromSpace.toBase is not a function", v)

/-- Pure content of `xyzStage`. -/
def xyzStageP (cbrt : ℚ → ℚ) (fromBaseSpace toBaseSpace : ColorSpace)
    (xyzIn xyzOut outputOklab : Bool) (v : Vec3q) :
    Except (String × Vec3q) Vec3q :=
  let step1 : Except (String × Vec3q) Vec3q :=
    if xyzIn then .ok v
    else
      match fromBaseSpace.toXYZ with
      | some f => .ok (f v)
      | none =>
        match fromBaseSpace.toXYZ_M with
        | some M => .ok (applyMat M v)
        | none => .error ("no toXYZ or toXYZ_M on " ++ fromBaseSpace.id, v)
  match step1 with
  | .error e => .error e
  | .ok v =>
    let v := match fromBaseSpace.adapt with
      | some a => applyMat a.toM v
      | none => v
    let v := match toBaseSpace.adapt with
      | some a => applyMat a.fromM v
      | none => v
    if xyzOut then .ok v
    else if outputOklab then .ok (OKLab_fromP cbrt XYZ_to_LMS_M v)
    else
      match toBaseSpace.fromXYZ with
      | some f => .ok (f v)
      | none =>
        match toBaseSpace.fromXYZ_M with
        | some M => .ok (applyMat M v)
        | none => .error ("no fromXYZ or fromXYZ_M on " ++ toBaseSpace.id, v)

/-- Pure content of `hubRoute`. -/
def hubRouteP (cbrt : ℚ → ℚ) (fromBaseSpace toBaseSpace : ColorSpace) (v : Vec3q) :
    Except (String × Vec3q) Vec3q :=
  if fromBaseSpace.id == "oklab" then
    match toBaseSpace.fromLMS_M with
    | some mat => .ok (OKLab_toP mat v)
    | none =>
      xyzStageP cbrt fromBaseSpace toBaseSpace true (toBaseSpace.id == "xyz")
        false (OKLab_toP LMS_to_XYZ_M v)
  else if toBaseSpace.id == "oklab" then
    match fromBaseSpace.toLMS_M with
    | some mat => .ok (OKLab_fromP cbrt mat v)
    | none =>
      xyzStageP cbrt fromBaseSpace toBaseSpace (fromBaseSpace.id == "xyz")
        (toBaseSpace.id == "xyz") true v
  else
    xyzStageP cbrt fromBaseSpace toBaseSpace (fromBaseSpace.id == "xyz")
      (toBaseSpace.id == "xyz") false v

/-- Pure content of `convert`. -/
def convertP (cbrt : ℚ → ℚ) (v : Vec3q)
    (fromSpace0 toSpace0 : Option ColorSpace) :
    Except (String × Vec3q) Vec3q :=
  match fromSpace0 with
  | none => .error ("must specify a fromSpace", v)
  | some fromSpace =>
    match toSpace0 with
    | none => .error ("must specify a toSpace", v)
    | some toSpace =>
      if refEq fromSpace toSpace then .ok v
      else
        match descendSourceP fromSpace v with
        | .error e => .error e
        | .ok (fromBaseSpace, v) =>
          let toBaseSpace := toSpace.base.getD toSpace
          if fromBaseSpace.base.isSome || toBaseSpace.base.isSome then
            .error ("Currently only base of depth=1 is supported", v)
          else
            match
              (if refEq fromBaseSpace toBaseSpace then .ok v
               else hubRouteP cbrt fromBaseSpace toBaseSpace v :
                Except (String × Vec3q) Vec3q) with
            | .error e => .error e
            | .ok v =>
              if refEq toBaseSpace toSpace then .ok v
              else
                match toSpace.fromBase with
                | some f => .ok (f v)
                | none =>
                  .error ("could not transform " ++ toBaseSpace.id ++
                    " to " ++ toSpace.id, v)

/-- Lift a pure router result back to buffers rooted at `out`. -/
def wrapE (out : Buf) : Except (String × Vec3q) Vec3q → Except (String × Buf) Buf
  | .ok v => .ok (write3 out v)
  | .error (m, v) => .error (m, write3 out v)

theorem descendSource_factor (s : ColorSpace) (out : Buf) (w : Vec3q) :
    descendSource s (write3 out w) =
      match descendSourceP s w with
      | .ok (sp, v) => .ok (sp, write3 out v)
      | .error (m, v) => .error (m, write3 out v) := by
  unfold descendSource descendSourceP
  cases s.base with
  | none => rfl
  | some b =>
    cases s.toBase with
    | none => rfl
    | some f => simp [applyFn3, read3_write3, write3_write3]

theorem xyzStage_factor (cbrt : ℚ → ℚ) (fb tb : ColorSpace)
    (xin xout ook : Bool) (out : Buf) (w : Vec3q) :
    xyzStage cbrt fb tb xin xout ook (write3 out w) =
      wrapE out (xyzStageP cbrt fb tb xin xout ook w) := by
  unfold xyzStage xyzStageP wrapE
  cases xin <;> cases hf : fb.toXYZ <;> cases hm : fb.toXYZ_M <;>
    cases ha : fb.adapt <;> cases hb : tb.adapt <;>
    cases xout <;> cases ook <;> cases hg : tb.fromXYZ <;> cases hn : tb.fromXYZ_M <;>
    simp [hf, hm, ha, hb, hg, hn, applyFn3, transform, OKLab_from_factor,
      read3_write3, write3_write3]

theorem hubRoute_factor (cbrt : ℚ → ℚ) (fb tb : ColorSpace) (out : Buf) (w : Vec3q) :
    hubRoute cbrt fb tb (write3 out w) = wrapE out (hubRouteP cbrt fb tb w) := by
  unfold hubRoute hubRouteP
  by_cases h1 : (fb.id == "oklab") = true
  · simp only [h1, if_true]
    cases hm : tb.fromLMS_M with
    | some mat => simp [wrapE, OKLab_to_factor, read3_write3]
    | none =>
      rw [OKLab_to_factor, read3_write3]
      exact xyzStage_factor cbrt fb tb true (tb.id == "xyz") false out _
  · rw [if_neg h1, if_neg h1]
    by_cases h2 : (tb.id == "oklab") = true
    · simp only [h2, if_true]
      cases hm : fb.toLMS_M with
      | some mat => simp [wrapE, OKLab_from_factor, read3_write3]
      | none =>
        exact xyzStage_factor cbrt fb tb (fb.id == "xyz") (tb.id == "xyz") true out w
    · rw [if_neg h2, if_neg h2]
      exact xyzStage_factor cbrt fb tb (fb.id == "xyz") (tb.id == "xyz") false out w

theorem convert_factor (cbrt : ℚ → ℚ) (input : Buf)
    (fromSpace0 toSpace0 : Option ColorSpace) (out0 : Buf) :
    convert cbrt input fromSpace0 toSpace0 out0 =
      wrapE out0 (convertP cbrt (read3 input) fromSpace0 toSpace0) := by
  cases fromSpace0 with
  | none => rfl
  | some fromSpace =>
    cases toSpace0 with
    | none => rfl
    | some toSpace =>
      unfold convert convertP
      dsimp only
      by_cases h0 : refEq fromSpace toSpace = true
      · simp only [h0, if_true]; rfl
      · rw [if_neg h0, if_neg h0]
        rw [show vec3Copy input out0 = write3 out0 (read3 input) from rfl]
        rw [descendSource_factor]
        cases hds : descendSourceP fromSpace (read3 input) with
        | error e => rfl
        | ok p =>
          obtain ⟨fromBaseSpace, v⟩ := p
          simp only []
          by_cases hd :
              (fromBaseSpace.base.isSome ||
                (toSpace.base.getD toSpace).base.isSome) = true
          · simp only [hd, if_true]; rfl
          · rw [if_neg hd, if_neg hd]
            by_cases he : refEq fromBaseSpace (toSpace.base.getD toSpace) = true
            · simp only [he, if_true]
              by_cases hf : refEq (toSpace.base.getD toSpace) toSpace = true
              · simp only [hf, if_true]; rfl
              · rw [if_neg hf, if_neg hf]
                cases hg : toSpace.fromBase with
                | some f => simp [wrapE, applyFn3, read3_write3, write3_write3]
                | none => rfl
            · rw [if_neg he, if_neg he, hubRoute_factor]
              cases hh : hubRouteP cbrt fromBaseSpace (toSpace.base.getD toSpace) v with
              | error e => rfl
              | ok vv =>
                simp only [wrapE]
                by_cases hf : refEq (toSpace.base.getD toSpace) toSpace = true
                · simp only [hf, if_true]
                · rw [if_neg hf, if_neg hf]
                  cases hg : toSpace.fromBase with
                  | some f => simp [wrapE, applyFn3, read3_write3, write3_write3]
                  | none => rfl

-- ### General consequences of the factorization

theorem OKLab_to_eq (v : Buf) (M : Mat3) (out : Buf) :
    OKLab_to v M out = write3 out (OKLab_toP M (read3 v)) := by
  simp [OKLab_to, OKLab_toP, transform, cubed3, read3_write3, write3_write3]

theorem OKLab_from_eq (cbrt : ℚ → ℚ) (v : Buf) (M : Mat3) (out : Buf) :
    OKLab_from cbrt v M out = write3 out (OKLab_fromP cbrt M (read3 v)) := by
  simp [OKLab_from, OKLab_fromP, transform, cbrt3, read3_write3, write3_write3]

/-- The buffer carried by a router outcome: the returned buffer on
success, the buffer state at the throw on error. -/
def resBuf : Except (String × Buf) Buf → Buf
  | .ok b => b
  | .error (_, b) => b

/-- Oddness of the real cube root: `Math.cbrt` is sign-preserving and
defined for negative arguments. -/
theorem realCbrt_neg (t : ℝ) : realCbrt (-t) = -realCbrt t := by
  unfold realCbrt
  rcases lt_trichotomy t 0 with h | h | h
  · rw [if_neg (by linarith), if_pos h, neg_neg]
  · rw [h]
    norm_num [Real.zero_rpow]
  · rw [if_pos (by linarith), if_neg (by linarith), neg_neg]

-- ### Claim C2

/-- C2: for every 3-component vector and matrix, `OKLab_to(v, M, out)`
equals `M` applied to the element-wise cube of `OKLab_to_LMS_M` applied
to `v`, and `OKLab_from(v, M, out)` equals `LMS_to_OKLab_M` applied to
the element-wise real cube root of `M` applied to `v`; the cube root is
sign-preserving and defined for negative components
(`cbrt (-t) = -cbrt t` for every `t`). -/
theorem OKLab_kernels_match_spec :
    (∀ (v : Buf) (M : Mat3) (out : Buf),
      OKLab_to v M out =
        write3 out (applyMat M (cube3 (applyMat OKLab_to_LMS_M (read3 v))))) ∧
    (∀ (cbrt : ℚ → ℚ) (v : Buf) (M : Mat3) (out : Buf),
      OKLab_from cbrt v M out =
        write3 out (applyMat LMS_to_OKLab_M (map3 cbrt (applyMat M (read3 v))))) ∧
    (∀ t : ℝ, realCbrt (-t) = -realCbrt t) :=
  ⟨fun v M out => OKLab_to_eq v M out,
   fun cbrt v M out => OKLab_from_eq cbrt v M out,
   realCbrt_neg⟩

-- ### Claim C3

/-- C3: for every color space `S` (of any shape, including deep base
chains or missing matrices) and every input, `convert(x, S, S, out)`
raises no error and returns `out` holding exactly the first three
components of `x` (the identity fast path copies and returns before any
validation of `S`). -/
theorem convert_self_identity (cbrt : ℚ → ℚ) (input : Buf) (S : ColorSpace)
    (out : Buf) :
    convert cbrt input (some S) (some S) out = .ok (vec3Copy input out) ∧
    read3 (vec3Copy input out) = read3 input := by
  refine ⟨?_, read3_vec3Copy input out⟩
  unfold convert
  dsimp only
  simp [refEq_self]

-- ### Claim C8

/-- C8: `convert` writes only indices 0, 1, 2 of the `out` buffer —
every component at index ≥ 3 (in particular a 4th alpha component, also
when `out` aliases the input) is preserved verbatim on success and on
error — and `convert` never reads components of the input beyond the
first three. -/
theorem convert_frame_effect (cbrt : ℚ → ℚ) (input : Buf)
    (fromSpace0 toSpace0 : Option ColorSpace) (out : Buf) :
    (∀ i, 3 ≤ i →
      bget (resBuf (convert cbrt input fromSpace0 toSpace0 out)) i = bget out i) ∧
    convert cbrt input fromSpace0 toSpace0 out =
      convert cbrt [bget input 0, bget input 1, bget input 2]
        fromSpace0 toSpace0 out := by
  constructor
  · intro i hi
    rw [convert_factor]
    cases h : convertP cbrt (read3 input) fromSpace0 toSpace0 with
    | ok v => simp [wrapE, resBuf, bget_write3_high _ _ _ hi]
    | error e =>
      obtain ⟨m, v⟩ := e
      simp [wrapE, resBuf, bget_write3_high _ _ _ hi]
  · rw [convert_factor, convert_factor]
    rfl

-- ### Claim C10

/-- C10: whenever `convert` raises, the first three components of `out`
have already been overwritten: the input is copied into `out` before the
missing-argument checks run (first two conjuncts), and every error
leaves `out` holding a 3-component value determined by the input and the
spaces alone — independent of `out`'s prior contents — with partial
transforms possibly applied (third conjunct). -/
theorem convert_error_overwrites_out (cbrt : ℚ → ℚ) (input : Buf) (out : Buf) :
    (∀ toSpace0, convert cbrt input none toSpace0 out =
      .error ("must specify a fromSpace", vec3Copy input out)) ∧
    (∀ fromSpace, convert cbrt input (some fromSpace) none out =
      .error ("must specify a toSpace", vec3Copy input out)) ∧
    (∀ fromSpace0 toSpace0 m b out2,
      convert cbrt input fromSpace0 toSpace0 out = .error (m, b) →
      ∃ v, b = write3 out v ∧
        ∀ b2, convert cbrt input fromSpace0 toSpace0 out2 = .error (m, b2) →
          b2 = write3 out2 v) := by
  refine ⟨fun _ => rfl, fun _ => rfl, ?_⟩
  intro fromSpace0 toSpace0 m b out2 h
  rw [convert_factor] at h
  cases hp : convertP cbrt (read3 input) fromSpace0 toSpace0 with
  | ok v => rw [hp] at h; exact absurd h (by simp [wrapE])
  | error e =>
    obtain ⟨m2, v⟩ := e
    rw [hp] at h
    simp only [wrapE, Except.error.injEq, Prod.mk.injEq] at h
    obtain ⟨hm, hb⟩ := h
    subst hm
    refine ⟨v, hb.symm, ?_⟩
    intro b2 h2
    rw [convert_factor, hp] at h2
    simp only [wrapE, Except.error.injEq, Prod.mk.injEq] at h2
    exact h2.2.symm

-- ### Claim C5

/-- C5: for distinct spaces, a base chain of depth greater than one
(`fromSpace.base.base` or `toSpace.base.base` set) makes `convert` raise
an error instead of resolving the deeper chain. -/
theorem convert_rejects_deep_base (cbrt : ℚ → ℚ) (input : Buf) (out : Buf)
    (fromSpace toSpace : ColorSpace)
    (hne : refEq fromSpace toSpace = false)
    (hdeep : (∃ b, fromSpace.base = some b ∧ b.base.isSome = true) ∨
             (∃ b, toSpace.base = some b ∧ b.base.isSome = true)) :
    ∃ e buf, convert cbrt input (some fromSpace) (some toSpace) out =
      .error (e, buf) := by
  rw [convert_factor]
  suffices h : ∃ m v,
      convertP cbrt (read3 input) (some fromSpace) (some toSpace) =
        .error (m, v) by
    obtain ⟨m, v, hm⟩ := h
    exact ⟨m, write3 out v, by rw [hm]; rfl⟩
  unfold convertP
  dsimp only
  rw [if_neg (by simp [hne])]
  rcases hdeep with ⟨b, hb, hbb⟩ | ⟨b, hb, hbb⟩
  · cases htb : fromSpace.toBase with
    | none =>
      rw [show descendSourceP fromSpace (read3 input) =
        .error ("fromSpace.toBase is not a function", read3 input) by
          unfold descendSourceP; rw [hb, htb]]
      exact ⟨_, _, rfl⟩
    | some f =>
      rw [show descendSourceP fromSpace (read3 input) =
        .ok (b, f (read3 input)) by unfold descendSourceP; rw [hb, htb]]
      dsimp only
      rw [if_pos (by simp [hbb])]
      exact ⟨_, _, rfl⟩
  · cases hfb : fromSpace.base with
    | none =>
      rw [show descendSourceP fromSpace (read3 input) =
        .ok (fromSpace, read3 input) by unfold descendSourceP; rw [hfb]]
      dsimp only
      rw [if_pos (by simp [hb, hbb])]
      exact ⟨_, _, rfl⟩
    | some b2 =>
      cases htb : fromSpace.toBase with
      | none =>
        rw [show descendSourceP fromSpace (read3 input) =
          .error ("fromSpace.toBase is not a function", read3 input) by
            unfold descendSourceP; rw [hfb, htb]]
        exact ⟨_, _, rfl⟩
      | some f =>
        rw [show descendSourceP fromSpace (read3 input) =
          .ok (b2, f (read3 input)) by unfold descendSourceP; rw [hfb, htb]]
        dsimp only
        rw [if_pos (by simp [hb, hbb])]
        exact ⟨_, _, rfl⟩

-- ### Claim C1

/-- The XYZ-hub composition described by claim C1 (spec §4.1 step 5) for
base-resolved endpoints: source→XYZ (skipped when the source is the XYZ
space; the source's `toXYZ` function is preferred over `toXYZ_M`, as in
`core.js` lines 386-389), source adaptation `adapt.to`, target adaptation
`adapt.from`, then XYZ→target (skipped when the target is the XYZ
space). -/
def xyzHubSpec (fb tb : ColorSpace) (v : Vec3q) : Vec3q :=
  let v1 := if fb.id = "xyz" then v else
    match fb.toXYZ with
    | some f => f v
    | none =>
      match fb.toXYZ_M with
      | some M => applyMat M v
      | none => v
  let v2 := match fb.adapt with
    | some a => applyMat a.toM v1
    | none => v1
  let v3 := match tb.adapt with
    | some a => applyMat a.fromM v2
    | none => v2
  if tb.id = "xyz" then v3 else
    match tb.fromXYZ with
    | some f => f v3
    | none =>
      match tb.fromXYZ_M with
      | some M => applyMat M v3
      | none => v3

/-- The full composition described by claim C1: `fromSpace.toBase` (if
`fromSpace` has a base), the XYZ-hub chain of `xyzHubSpec` on the
base-resolved endpoints, then `toSpace.fromBase` (if `toSpace` has a
base), in this order. -/
def xyzRouteSpec (fromSpace toSpace : ColorSpace) (x : Vec3q) : Vec3q :=
  let v1 := match fromSpace.base, fromSpace.toBase with
    | some _, some f => f x
    | _, _ => x
  let v2 := xyzHubSpec (baseOf fromSpace) (baseOf toSpace) v1
  match toSpace.base, toSpace.fromBase with
  | some _, some f => f v2
  | _, _ => v2

theorem xyzStageP_spec (cbrt : ℚ → ℚ) (fb tb : ColorSpace) (v : Vec3q)
    (hsx : fb.id ≠ "xyz" → (fb.toXYZ.isSome ∨ fb.toXYZ_M.isSome))
    (htx : tb.id ≠ "xyz" → (tb.fromXYZ.isSome ∨ tb.fromXYZ_M.isSome)) :
    xyzStageP cbrt fb tb (fb.id == "xyz") (tb.id == "xyz") false v =
      .ok (xyzHubSpec fb tb v) := by
  unfold xyzStageP xyzHubSpec
  by_cases h1 : fb.id = "xyz"
  · by_cases h2 : tb.id = "xyz"
    · cases ha : fb.adapt <;> cases hb2 : tb.adapt <;> simp [h1, h2, ha, hb2]
    · cases ha : fb.adapt <;> cases hb2 : tb.adapt <;>
        cases hg : tb.fromXYZ <;> cases hgm : tb.fromXYZ_M <;>
        first
          | (simp [h1, h2, ha, hb2, hg, hgm]; done)
          | (rcases htx h2 with hT | hT <;> (simp_all; done))
  · by_cases h2 : tb.id = "xyz"
    · cases ha : fb.adapt <;> cases hb2 : tb.adapt <;>
        cases hf : fb.toXYZ <;> cases hfm : fb.toXYZ_M <;>
        first
          | (simp [h1, h2, ha, hb2, hf, hfm]; done)
          | (rcases hsx h1 with hS | hS <;> (simp_all; done))
    · cases ha : fb.adapt <;> cases hb2 : tb.adapt <;>
        cases hf : fb.toXYZ <;> cases hfm : fb.toXYZ_M <;>
        cases hg : tb.fromXYZ <;> cases hgm : tb.fromXYZ_M <;>
        first
          | (simp [h1, h2, ha, hb2, hf, hfm, hg, hgm]; done)
          | (rcases hsx h1 with hS | hS <;> (simp_all; done))
          | (rcases htx h2 with hT | hT <;> (simp_all; done))

theorem hubRouteP_not_oklab (cbrt : ℚ → ℚ) (fb tb : ColorSpace) (v : Vec3q)
    (hok1 : fb.id ≠ "oklab") (hok2 : tb.id ≠ "oklab")
    (hsx : fb.id ≠ "xyz" → (fb.toXYZ.isSome ∨ fb.toXYZ_M.isSome))
    (htx : tb.id ≠ "xyz" → (tb.fromXYZ.isSome ∨ tb.fromXYZ_M.isSome)) :
    hubRouteP cbrt fb tb v = .ok (xyzHubSpec fb tb v) := by
  unfold hubRouteP
  rw [if_neg (by simp [hok1]), if_neg (by simp [hok2])]
  exact xyzStageP_spec cbrt fb tb v hsx htx

/-- C1: with distinct spaces whose base-resolved forms differ and are
neither of them the OKLab space, `convert` returns the composition, in
this order, of `fromSpace.toBase` (if a base is set), the source's
to-XYZ transform (skipped when the base-resolved source is the XYZ
space), the source's `adapt.to`, the target's `adapt.from`, the target's
from-XYZ transform (skipped when the base-resolved target is the XYZ
space), and `toSpace.fromBase` (if a base is set) — `xyzRouteSpec`
spells out exactly this composition. -/
theorem convert_routes_through_xyz_hub (cbrt : ℚ → ℚ) (input : Buf)
    (out : Buf) (fromSpace toSpace : ColorSpace)
    (hne : refEq fromSpace toSpace = false)
    (htb : fromSpace.base.isSome → fromSpace.toBase.isSome)
    (hfb : toSpace.base.isSome → toSpace.fromBase.isSome)
    (hrefb : toSpace.base.isSome → refEq (baseOf toSpace) toSpace = false)
    (hd1 : (baseOf fromSpace).base = none)
    (hd2 : (baseOf toSpace).base = none)
    (hbne : refEq (baseOf fromSpace) (baseOf toSpace) = false)
    (hok1 : (baseOf fromSpace).id ≠ "oklab")
    (hok2 : (baseOf toSpace).id ≠ "oklab")
    (hsx : (baseOf fromSpace).id ≠ "xyz" →
      ((baseOf fromSpace).toXYZ.isSome ∨ (baseOf fromSpace).toXYZ_M.isSome))
    (htx : (baseOf toSpace).id ≠ "xyz" →
      ((baseOf toSpace).fromXYZ.isSome ∨ (baseOf toSpace).fromXYZ_M.isSome)) :
    convert cbrt input (some fromSpace) (some toSpace) out =
      .ok (write3 out (xyzRouteSpec fromSpace toSpace (read3 input))) := by
  rw [convert_factor]
  suffices hP : convertP cbrt (read3 input) (some fromSpace) (some toSpace) =
      .ok (xyzRouteSpec fromSpace toSpace (read3 input)) by
    rw [hP]; rfl
  unfold convertP
  dsimp only
  rw [if_neg (by simp [hne])]
  cases hb : fromSpace.base with
  | some b =>
    obtain ⟨f, hfun⟩ := Option.isSome_iff_exists.mp (htb (by simp [hb]))
    have hbase : baseOf fromSpace = b := by simp [baseOf, hb]
    rw [hbase] at hd1 hbne hok1 hsx
    rw [show descendSourceP fromSpace (read3 input) = .ok (b, f (read3 input))
      by unfold descendSourceP; rw [hb, hfun]]
    dsimp only
    cases htsb : toSpace.base with
    | some tb =>
      have htbase : baseOf toSpace = tb := by simp [baseOf, htsb]
      rw [htbase] at hd2 hbne hok2 htx hrefb
      obtain ⟨g, hgun⟩ := Option.isSome_iff_exists.mp (hfb (by simp [htsb]))
      simp only [Option.getD_some]
      rw [if_neg (by simp [hd1, hd2]), if_neg (by simp [hbne]),
        hubRouteP_not_oklab cbrt b tb _ hok1 hok2 hsx htx]
      dsimp only
      rw [if_neg (by simp [hrefb (by simp [htsb])]), hgun]
      unfold xyzRouteSpec
      rw [hbase, htbase]
      simp [hb, hfun, htsb, hgun]
    | none =>
      have htbase : baseOf toSpace = toSpace := by simp [baseOf, htsb]
      rw [htbase] at hd2 hbne hok2 htx
      simp only [Option.getD_none]
      rw [if_neg (by simp [hd1, hd2]), if_neg (by simp [hbne]),
        hubRouteP_not_oklab cbrt b toSpace _ hok1 hok2 hsx htx]
      dsimp only
      rw [if_pos (refEq_self toSpace)]
      unfold xyzRouteSpec
      rw [hbase, htbase]
      simp [hb, hfun, htsb]
  | none =>
    have hbase : baseOf fromSpace = fromSpace := by simp [baseOf, hb]
    rw [hbase] at hd1 hbne hok1 hsx
    rw [show descendSourceP fromSpace (read3 input) =
      .ok (fromSpace, read3 input) by unfold descendSourceP; rw [hb]]
    dsimp only
    cases htsb : toSpace.base with
    | some tb =>
      have htbase : baseOf toSpace = tb := by simp [baseOf, htsb]
      rw [htbase] at hd2 hbne hok2 htx hrefb
      obtain ⟨g, hgun⟩ := Option.isSome_iff_exists.mp (hfb (by simp [htsb]))
      simp only [Option.getD_some]
      rw [if_neg (by simp [hd1, hd2]), if_neg (by simp [hbne]),
        hubRouteP_not_oklab cbrt fromSpace tb _ hok1 hok2 hsx htx]
      dsimp only
      rw [if_neg (by simp [hrefb (by simp [htsb])]), hgun]
      unfold xyzRouteSpec
      rw [hbase, htbase]
      simp [hb, htsb, hgun]
    | none =>
      have htbase : baseOf toSpace = toSpace := by simp [baseOf, htsb]
      rw [htbase] at hd2 hbne hok2 htx
      simp only [Option.getD_none]
      rw [if_neg (by simp [hd1, hd2]), if_neg (by simp [hbne]),
        hubRouteP_not_oklab cbrt fromSpace toSpace _ hok1 hok2 hsx htx]
      dsimp only
      rw [if_pos (refEq_self toSpace)]
      unfold xyzRouteSpec
      rw [hbase, htbase]
      simp [hb, htsb]

-- ### Claim C6

/-- If the hub route itself fails, `convert`'s pure core propagates that
failure (the final `fromBase` step is never reached). -/
theorem convertP_hub_error (cbrt : ℚ → ℚ) (v : Vec3q)
    (fromSpace toSpace : ColorSpace) (m : String)
    (hne : refEq fromSpace toSpace = false)
    (htb : fromSpace.base.isSome → fromSpace.toBase.isSome)
    (hd1 : (baseOf fromSpace).base = none)
    (hd2 : (baseOf toSpace).base = none)
    (hbne : refEq (baseOf fromSpace) (baseOf toSpace) = false)
    (herr : ∀ w, ∃ u, hubRouteP cbrt (baseOf fromSpace) (baseOf toSpace) w =
      .error (m, u)) :
    ∃ u, convertP cbrt v (some fromSpace) (some toSpace) = .error (m, u) := by
  unfold convertP
  dsimp only
  rw [if_neg (by simp [hne])]
  have hgd : toSpace.base.getD toSpace = baseOf toSpace := rfl
  cases hb : fromSpace.base with
  | some b =>
    obtain ⟨f, hfun⟩ := Option.isSome_iff_exists.mp (htb (by simp [hb]))
    have hbase : baseOf fromSpace = b := by simp [baseOf, hb]
    rw [show descendSourceP fromSpace v = .ok (b, f v) by
      unfold descendSourceP; rw [hb, hfun]]
    dsimp only
    rw [hgd, if_neg (by simp [← hbase, hd1, hd2]),
      if_neg (by rw [← hbase]; simp [hbne])]
    obtain ⟨u, hu⟩ := herr (f v)
    rw [← hbase, hu]
    exact ⟨u, rfl⟩
  | none =>
    have hbase : baseOf fromSpace = fromSpace := by simp [baseOf, hb]
    have hd1b : fromSpace.base = none := by rw [← hbase]; exact hd1
    have hbneb : refEq fromSpace (baseOf toSpace) = false := by
      rw [← hbase]; exact hbne
    rw [show descendSourceP fromSpace v = .ok (fromSpace, v) by
      unfold descendSourceP; rw [hb]]
    dsimp only
    rw [hgd, if_neg (by simp [hd1b, hd2]), if_neg (by simp [hbneb])]
    obtain ⟨u, hu⟩ := herr v
    rw [hbase] at hu
    rw [hu]
    exact ⟨u, rfl⟩

/-- C6: when hub routing needs a matrix the space lacks with no
alternative path, `convert` raises the corresponding distinct error at
that call, never a silent identity or NaN result: the first conjunct
covers a base-resolved source that is neither XYZ nor OKLab and exposes
neither `toXYZ` nor `toXYZ_M` (with no direct LMS bridge when the target
is OKLab); the second covers a base-resolved target that is neither XYZ
nor OKLab and exposes neither `fromXYZ` nor `fromXYZ_M`, while the
source stage itself goes through; the third states that the two error
messages are distinct whatever the space ids are. -/
theorem convert_missing_hub_matrix_errors (cbrt : ℚ → ℚ) (input : Buf)
    (out : Buf) (fromSpace toSpace : ColorSpace)
    (hne : refEq fromSpace toSpace = false)
    (htb : fromSpace.base.isSome → fromSpace.toBase.isSome)
    (hd1 : (baseOf fromSpace).base = none)
    (hd2 : (baseOf toSpace).base = none)
    (hbne : refEq (baseOf fromSpace) (baseOf toSpace) = false) :
    (((baseOf fromSpace).id ≠ "xyz" ∧ (baseOf fromSpace).id ≠ "oklab" ∧
      (baseOf fromSpace).toXYZ = none ∧ (baseOf fromSpace).toXYZ_M = none ∧
      ((baseOf toSpace).id = "oklab" → (baseOf fromSpace).toLMS_M = none)) →
      ∃ b, convert cbrt input (some fromSpace) (some toSpace) out =
        .error ("no toXYZ or toXYZ_M on " ++ (baseOf fromSpace).id, b)) ∧
    (((baseOf toSpace).id ≠ "xyz" ∧ (baseOf toSpace).id ≠ "oklab" ∧
      (baseOf toSpace).fromXYZ = none ∧ (baseOf toSpace).fromXYZ_M = none ∧
      ((baseOf fromSpace).id = "oklab" → (baseOf toSpace).fromLMS_M = none) ∧
      ((baseOf fromSpace).id ≠ "oklab" → ((baseOf fromSpace).id = "xyz" ∨
        (baseOf fromSpace).toXYZ.isSome ∨ (baseOf fromSpace).toXYZ_M.isSome)))
      → ∃ b, convert cbrt input (some fromSpace) (some toSpace) out =
        .error ("no fromXYZ or fromXYZ_M on " ++ (baseOf toSpace).id, b)) ∧
    (∀ s t : String,
      "no toXYZ or toXYZ_M on " ++ s ≠ "no fromXYZ or fromXYZ_M on " ++ t) := by
  refine ⟨?_, ?_, ?_⟩
  · rintro ⟨hx1, ho1, hf1, hm1, hlms⟩
    rw [convert_factor]
    have herr : ∀ w, ∃ u,
        hubRouteP cbrt (baseOf fromSpace) (baseOf toSpace) w =
          .error ("no toXYZ or toXYZ_M on " ++ (baseOf fromSpace).id, u) := by
      intro w
      unfold hubRouteP
      rw [if_neg (by simp [ho1])]
      by_cases h2 : (baseOf toSpace).id = "oklab"
      · rw [if_pos (by simp [h2]), hlms h2]
        unfold xyzStageP
        rw [if_neg (by simp [hx1]), hf1, hm1]
        exact ⟨w, rfl⟩
      · rw [if_neg (by simp [h2])]
        unfold xyzStageP
        rw [if_neg (by simp [hx1]), hf1, hm1]
        exact ⟨w, rfl⟩
    obtain ⟨u, hu⟩ := convertP_hub_error cbrt (read3 input) fromSpace toSpace
      _ hne htb hd1 hd2 hbne herr
    exact ⟨write3 out u, by rw [hu]; rfl⟩
  · rintro ⟨hx2, ho2, hg2, hn2, hlms2, hsrc⟩
    rw [convert_factor]
    have herr : ∀ w, ∃ u,
        hubRouteP cbrt (baseOf fromSpace) (baseOf toSpace) w =
          .error ("no fromXYZ or fromXYZ_M on " ++ (baseOf toSpace).id, u) := by
      intro w
      unfold hubRouteP
      by_cases h1 : (baseOf fromSpace).id = "oklab"
      · rw [if_pos (by simp [h1]), hlms2 h1]
        unfold xyzStageP
        rw [if_pos rfl]
        dsimp only
        cases hada : (baseOf fromSpace).adapt <;>
          cases hadb : (baseOf toSpace).adapt <;>
          · rw [if_neg (by simp [hx2]), if_neg (by simp), hg2, hn2]
            exact ⟨_, rfl⟩
      · rw [if_neg (by simp [h1]), if_neg (by simp [ho2])]
        unfold xyzStageP
        by_cases hx : (baseOf fromSpace).id = "xyz"
        · rw [if_pos (by simp [hx])]
          dsimp only
          cases hada : (baseOf fromSpace).adapt <;>
            cases hadb : (baseOf toSpace).adapt <;>
            · rw [if_neg (by simp [hx2]), if_neg (by simp), hg2, hn2]
              exact ⟨_, rfl⟩
        · rw [if_neg (by simp [hx])]
          rcases hsrc h1 with hxyz | hfn | hmn
          · exact absurd hxyz hx
          · obtain ⟨f, hf⟩ := Option.isSome_iff_exists.mp hfn
            rw [hf]
            dsimp only
            cases hada : (baseOf fromSpace).adapt <;>
              cases hadb : (baseOf toSpace).adapt <;>
              · rw [if_neg (by simp [hx2]), if_neg (by simp), hg2, hn2]
                exact ⟨_, rfl⟩
          · obtain ⟨M, hM⟩ := Option.isSome_iff_exists.mp hmn
            cases hff : (baseOf fromSpace).toXYZ with
            | some f =>
              dsimp only
              cases hada : (baseOf fromSpace).adapt <;>
                cases hadb : (baseOf toSpace).adapt <;>
                · rw [if_neg (by simp [hx2]), if_neg (by simp), hg2, hn2]
                  exact ⟨_, rfl⟩
            | none =>
              rw [hM]
              dsimp only
              cases hada : (baseOf fromSpace).adapt <;>
                cases hadb : (baseOf toSpace).adapt <;>
                · rw [if_neg (by simp [hx2]), if_neg (by simp), hg2, hn2]
                  exact ⟨_, rfl⟩
    obtain ⟨u, hu⟩ := convertP_hub_error cbrt (read3 input) fromSpace toSpace
      _ hne htb hd1 hd2 hbne herr
    exact ⟨write3 out u, by rw [hu]; rfl⟩
  · intro s t h
    have hd := congrArg String.data h
    simp [String.data_append] at hd

-- ### The color-space registry (`src/spaces.js` and `src/spaces/*.js`)

/-- The JS runtime numeric primitives used by the space descriptors
(`Math.pow`, `Math.cbrt`, `Math.cos`, `Math.sin`, `Math.sqrt`,
`Math.atan2`), plus the OKHSV/OKHSL transfer functions whose defining
module (`spaces/oklab.js`) is not under `src/`; all are irrational-valued
maps taken as parameters — no settled claim depends on their values. -/
structure Prims where
  pow : ℚ → ℚ → ℚ
  cbrt : ℚ → ℚ
  cos : ℚ → ℚ
  sin : ℚ → ℚ
  sqrt : ℚ → ℚ
  atan2 : ℚ → ℚ → ℚ
  okhsvToBase : Vec3q → Vec3q
  okhsvFromBase : Vec3q → Vec3q
  okhslToBase : Vec3q → Vec3q
  okhslFromBase : Vec3q → Vec3q

/-- Modelled from the spec: a nominal 3×3 matrix standing for the numeric
matrices of the missing `conversion_matrices.js`; the spec fixes no
entries and no claim depends on them. -/
def nominalMat : Mat3 := ((1, 0, 0), (0, 1, 0), (0, 0, 1))

/-- Modelled from the spec: `XYZ` of the missing `spaces/xyz.js` — the
D65 hub space, id `"xyz"`, carrying only the LMS bridge matrices
(`core.js` uses `XYZ.fromLMS_M` and `XYZ.toLMS_M` on the OKLab fallback
paths). -/
def XYZ : ColorSpace :=
  .mk 0 "xyz" none none (some XYZ_to_LMS_M) (some LMS_to_XYZ_M)
    none none none none none none

/-- Modelled from the spec: `XYZD50` of the missing `spaces/xyz.js` — id
`"xyz-d50"`, no base, carrying only the D65↔D50 whitepoint adaptation
pair. -/
def XYZD50 : ColorSpace :=
  .mk 1 "xyz-d50" none none none none none none
    (some ⟨nominalMat, nominalMat⟩) none none none

/-- Modelled from the spec: `OKLab` of the missing `spaces/oklab.js` —
id `"oklab"`; the router special-cases it by id, it carries no matrices
of its own. -/
def OKLab : ColorSpace :=
  .mk 2 "oklab" none none none none none none none none none none

/-- Modelled from the spec: the OKLCH→OKLab transfer of the missing
`spaces/oklab.js`: `[L, C·cos h, C·sin h]` (the trig primitives take the
hue in degrees). -/
def OKLCHToOKLab (P : Prims) (v : Vec3q) : Vec3q :=
  (v.1, v.2.1 * P.cos v.2.2, v.2.1 * P.sin v.2.2)

/-- Modelled from the spec: the OKLab→OKLCH transfer of the missing
`spaces/oklab.js`: `[L, sqrt (a² + b²), atan2 b a]`. -/
def OKLabToOKLCH (P : Prims) (v : Vec3q) : Vec3q :=
  (v.1, P.sqrt (v.2.1 * v.2.1 + v.2.2 * v.2.2), P.atan2 v.2.2 v.2.1)

/-- Modelled from the spec: `OKLCH` of the missing `spaces/oklab.js` —
id `"oklch"`, the cylindrical form of OKLab, derived from `OKLab` with
one base level. -/
def OKLCH (P : Prims) : ColorSpace :=
  .mk 3 "oklch" none none none none none none none
    (some OKLab) (some (OKLCHToOKLab P)) (some (OKLabToOKLCH P))

/-- Modelled from the spec: `OKHSV` of the missing `spaces/oklab.js` —
id `"okhsv"`, derived from `OKLab`, with transfer functions fixed to the
sRGB gamut (taken as primitives). -/
def OKHSV (P : Prims) : ColorSpace :=
  .mk 4 "okhsv" none none none none none none none
    (some OKLab) (some P.okhsvToBase) (some P.okhsvFromBase)

/-- Modelled from the spec: `OKHSL` of the missing `spaces/oklab.js` —
id `"okhsl"`, derived from `OKLab`. -/
def OKHSL (P : Prims) : ColorSpace :=
  .mk 5 "okhsl" none none none none none none none
    (some OKLab) (some P.okhslToBase) (some P.okhslFromBase)

/-- `sRGBLinear` of `spaces/srgb.js`: id `"srgb-linear"`, direct XYZ and
LMS matrices, no base. -/
def sRGBLinear : ColorSpace :=
  .mk 7 "srgb-linear" (some nominalMat) (some nominalMat)
    (some nominalMat) (some nominalMat) none none none none none none

/-- Modelled from the spec: the scalar sRGB gamma→linear transfer of the
missing `spaces/util.js` (standard piecewise curve, with `Math.pow` as
the parameter). -/
def sRGBGammaToLinear (P : Prims) (x : ℚ) : ℚ :=
  let s : ℚ := if x < 0 then -1 else 1
  let a : ℚ := |x|
  if a ≤ 0.04045 then x / 12.92 else s * P.pow ((a + 0.055) / 1.055) 2.4

/-- Modelled from the spec: the scalar sRGB linear→gamma transfer of the
missing `spaces/util.js`. -/
def sRGBLinearToGamma (P : Prims) (x : ℚ) : ℚ :=
  let s : ℚ := if x < 0 then -1 else 1
  let a : ℚ := |x|
  if a ≤ 0.0031308 then x * 12.92 else s * (1.055 * P.pow a (1 / 2.4) - 0.055)

/-- Modelled from the spec: `sRGBGammaToLinearVec3` of the missing
`spaces/util.js`. -/
def sRGBGammaToLinearVec3 (P : Prims) (v : Vec3q) : Vec3q :=
  map3 (sRGBGammaToLinear P) v

/-- Modelled from the spec: `sRGBLinearToGammaVec3` of the missing
`spaces/util.js`. -/
def sRGBLinearToGammaVec3 (P : Prims) (v : Vec3q) : Vec3q :=
  map3 (sRGBLinearToGamma P) v

/-- `sRGB` of `spaces/srgb.js`: id `"srgb"`, derived from `sRGBLinear`
through the sRGB transfer curve. -/
def sRGB (P : Prims) : ColorSpace :=
  .mk 6 "srgb" none none none none none none none
    (some sRGBLinear) (some (sRGBGammaToLinearVec3 P))
    (some (sRGBLinearToGammaVec3 P))

/-- `DisplayP3Linear` of `spaces/display-p3.js`. -/
def DisplayP3Linear : ColorSpace :=
  .mk 9 "display-p3-linear" (some nominalMat) (some nominalMat)
    (some nominalMat) (some nominalMat) none none none none none none

/-- `DisplayP3` of `spaces/display-p3.js`: shares the sRGB transfer
curve, derived from `DisplayP3Linear`. -/
def DisplayP3 (P : Prims) : ColorSpace :=
  .mk 8 "display-p3" none none none none none none none
    (some DisplayP3Linear) (some (sRGBGammaToLinearVec3 P))
    (some (sRGBLinearToGammaVec3 P))

/-- The `ALPHA` constant of `spaces/rec2020.js`. -/
def rec2020Alpha : ℚ := 1.09929682680944

/-- The `BETA` constant of `spaces/rec2020.js`. -/
def rec2020Beta : ℚ := 0.018053968510807

/-- `Rec2020ToLinear` of `spaces/rec2020.js`, with `Math.pow` as
parameter. -/
def Rec2020ToLinear (P : Prims) (val : ℚ) : ℚ :=
  if val < rec2020Beta * 4.5 then val / 4.5
  else P.pow ((val + rec2020Alpha - 1) / rec2020Alpha) (1 / 0.45)

/-- `Rec2020ToGamma` of `spaces/rec2020.js`, with `Math.pow` as
parameter. -/
def Rec2020ToGamma (P : Prims) (val : ℚ) : ℚ :=
  if rec2020Beta ≤ val then rec2020Alpha * P.pow val 0.45 - (rec2020Alpha - 1)
  else 4.5 * val

/-- `Rec2020Linear` of `spaces/rec2020.js`. -/
def Rec2020Linear : ColorSpace :=
  .mk 11 "rec2020-linear" (some nominalMat) (some nominalMat)
    (some nominalMat) (some nominalMat) none none none none none none

/-- `Rec2020` of `spaces/rec2020.js`: derived from `Rec2020Linear`
through the Rec2020 transfer curve applied component-wise. -/
def Rec2020 (P : Prims) : ColorSpace :=
  .mk 10 "rec2020" none none none none none none none
    (some Rec2020Linear) (some (map3 (Rec2020ToLinear P)))
    (some (map3 (Rec2020ToGamma P)))

/-- `A98RGBToLinear` of `spaces/a98-rgb.js`: sign-preserving power
`563/256`. -/
def A98RGBToLinear (P : Prims) (val : ℚ) : ℚ :=
  (if val < 0 then (-1 : ℚ) else 1) * P.pow |val| (563 / 256)

/-- `A98RGBToGamma` of `spaces/a98-rgb.js`: sign-preserving power
`256/563`. -/
def A98RGBToGamma (P : Prims) (val : ℚ) : ℚ :=
  (if val < 0 then (-1 : ℚ) else 1) * P.pow |val| (256 / 563)

/-- `A98RGBLinear` of `spaces/a98-rgb.js`. -/
def A98RGBLinear : ColorSpace :=
  .mk 13 "a98-rgb-linear" (some nominalMat) (some nominalMat)
    (some nominalMat) (some nominalMat) none none none none none none

/-- `A98RGB` of `spaces/a98-rgb.js`: derived from `A98RGBLinear`. -/
def A98RGB (P : Prims) : ColorSpace :=
  .mk 12 "a98-rgb" none none none none none none none
    (some A98RGBLinear) (some (map3 (A98RGBToLinear P)))
    (some (map3 (A98RGBToGamma P)))

/-- Modelled from the spec: `ProPhotoRGBLinear` of the missing
`spaces/prophoto-rgb.js` — a D50-based linear space with XYZ matrices
and a whitepoint adaptation pair, no base. -/
def ProPhotoRGBLinear : ColorSpace :=
  .mk 15 "prophoto-rgb-linear" (some nominalMat) (some nominalMat)
    none none none none (some ⟨nominalMat, nominalMat⟩) none none none

/-- Modelled from the spec: the scalar ProPhoto gamma→linear transfer of
the missing `spaces/prophoto-rgb.js` (standard 1.8-gamma piecewise
curve). -/
def proPhotoToLinear (P : Prims) (val : ℚ) : ℚ :=
  if |val| ≤ 16 / 512 then val / 16 else
    (if val < 0 then (-1 : ℚ) else 1) * P.pow |val| 1.8

/-- Modelled from the spec: the scalar ProPhoto linear→gamma transfer of
the missing `spaces/prophoto-rgb.js`. -/
def proPhotoToGamma (P : Prims) (val : ℚ) : ℚ :=
  if |val| ≤ 1 / 512 then 16 * val else
    (if val < 0 then (-1 : ℚ) else 1) * P.pow |val| (1 / 1.8)

/-- Modelled from the spec: `ProPhotoRGB` of the missing
`spaces/prophoto-rgb.js`, derived from `ProPhotoRGBLinear`. -/
def ProPhotoRGB (P : Prims) : ColorSpace :=
  .mk 14 "prophoto-rgb" none none none none none none none
    (some ProPhotoRGBLinear) (some (map3 (proPhotoToLinear P)))
    (some (map3 (proPhotoToGamma P)))

/-- `listColorSpaces` of `src/spaces.js` (lines 44-63), in the source's
order. -/
def listColorSpaces (P : Prims) : List ColorSpace :=
  [XYZ, XYZD50, OKLab, OKLCH P, OKHSV P, OKHSL P,
   sRGB P, sRGBLinear, DisplayP3 P, DisplayP3Linear,
   Rec2020 P, Rec2020Linear, A98RGB P, A98RGBLinear,
   ProPhotoRGB P, ProPhotoRGBLinear]

-- ### Claim C9

/-- The descriptor invariant of the spec's data model: a base chain of
depth at most 1, and `toBase` / `fromBase` present exactly when `base`
is set. -/
def descriptorInvariant (s : ColorSpace) : Bool :=
  match s.base with
  | some b => b.base.isNone && s.toBase.isSome && s.fromBase.isSome
  | none => s.toBase.isNone && s.fromBase.isNone

/-- C9: every space returned by `listColorSpaces` satisfies the
descriptor invariant — any set `base` has no base of its own, and
`toBase` / `fromBase` are present exactly when `base` is set. -/
theorem listColorSpaces_satisfy_invariant (P : Prims) :
    (listColorSpaces P).all descriptorInvariant = true := rfl

-- ### Gamut mapping (claim C7)

/-- The `ColorGamut` of `core.js` (lines 42-45): the gamut's RGB space.
The `coefficients` payload is consumed only by the cusp solver of the
missing gamut module (represented by the `findCuspF` parameter below)
and is therefore not materialised. -/
structure ColorGamut where
  space : ColorSpace

/-- Modelled from the spec: the default gamut epsilon (≈ 7.5e-5) of the
missing gamut module. -/
def GAMUT_EPSILON : ℚ := 0.000075

/-- `clamp` of `src` utilities: `Math.max(Math.min(value, max), min)`. -/
def clamp (value lo hi : ℚ) : ℚ := max (min value hi) lo

/-- `isRGBInGamut` of the `src` utilities: every channel within
`[-ep, 1 + ep]`. -/
def isRGBInGamut (lrgb : Buf) (ep : ℚ) : Bool :=
  decide (-ep ≤ bget lrgb 0) && decide (bget lrgb 0 ≤ 1 + ep) &&
  decide (-ep ≤ bget lrgb 1) && decide (bget lrgb 1 ≤ 1 + ep) &&
  decide (-ep ≤ bget lrgb 2) && decide (bget lrgb 2 ≤ 1 + ep)

/-- `clampedRGB` of the `src` utilities: clamp the three channels to
`[0, 1]`, writing into `out`. -/
def clampedRGB (rgb out : Buf) : Buf :=
  write3 out (clamp (bget rgb 0) 0 1, clamp (bget rgb 1) 0 1,
    clamp (bget rgb 2) 0 1)

/-- A fresh 3-component buffer (`vec3()` of the `src` utilities). -/
def vec3 : Buf := [0, 0, 0]

/-- A 3-component buffer holding the given value. -/
def buf3 (v : Vec3q) : Buf := [v.1, v.2.1, v.2.2]

/-- Modelled from the spec: the tail of `gamutMapOKLCH` (spec §4.4 step
4, source not under `src/`): convert the (possibly adjusted) OKLCH color
to `targetSpace` via the router; when `targetSpace` resolves through its
base chain to the gamut's RGB space, clamp the result to `[0,1]`,
otherwise return it unclamped. -/
def gamutMapFinish (P : Prims) (src : Buf) (gamut : ColorGamut)
    (targetSpace : ColorSpace) (out : Buf) : Except (String × Buf) Buf :=
  match convert P.cbrt src (some (OKLCH P)) (some targetSpace) out with
  | .error e => .error e
  | .ok res =>
    if refEq (baseOf targetSpace) (baseOf gamut.space) then
      .ok (clampedRGB res res)
    else .ok res

/-- Modelled from the spec: `gamutMapOKLCH` (spec §4.4, source not under
`src/`).  The cusp solver of the missing gamut module appears as the
`findCuspF` parameter and the mapping variant as the `mapping`
parameter.  Steps: (1) compute the cusp for the input's hue unless one
is supplied; (2) convert the input to the gamut's RGB space and test the
per-channel `[-ep, 1+ep]` bounds; if inside, skip clipping and only
convert to `targetSpace`; (3) otherwise apply `mapping` to the OKLCH
triple using the cusp; (4) convert to `targetSpace`, with a final RGB
clamp when the target resolves to the gamut's RGB space. -/
def gamutMapOKLCH (P : Prims) (findCuspF : ℚ → ℚ → ℚ × ℚ) (oklch : Buf)
    (gamut : ColorGamut) (targetSpace : ColorSpace) (out : Buf)
    (mapping : Vec3q → (ℚ × ℚ) → Vec3q) (cusp0 : Option (ℚ × ℚ)) :
    Except (String × Buf) Buf :=
  let cusp := cusp0.getD
    (findCuspF (P.cos (bget oklch 2)) (P.sin (bget oklch 2)))
  match convert P.cbrt oklch (some (OKLCH P)) (some gamut.space) vec3 with
  | .error e => .error e
  | .ok rgb =>
    if isRGBInGamut rgb GAMUT_EPSILON then
      gamutMapFinish P oklch gamut targetSpace out
    else
      gamutMapFinish P (buf3 (mapping (read3 oklch) cusp)) gamut
        targetSpace out

theorem bget_write3_zero (b : Buf) (v : Vec3q) : bget (write3 b v) 0 = v.1 := by
  rw [write3_eq]; rfl

theorem bget_write3_one (b : Buf) (v : Vec3q) : bget (write3 b v) 1 = v.2.1 := by
  rw [write3_eq]; rfl

theorem bget_write3_two (b : Buf) (v : Vec3q) : bget (write3 b v) 2 = v.2.2 := by
  rw [write3_eq]; rfl

theorem bget_clampedRGB_zero (a b : Buf) :
    bget (clampedRGB a b) 0 = clamp (bget a 0) 0 1 := by
  unfold clampedRGB; rw [bget_write3_zero]

theorem bget_clampedRGB_one (a b : Buf) :
    bget (clampedRGB a b) 1 = clamp (bget a 1) 0 1 := by
  unfold clampedRGB; rw [bget_write3_one]

theorem bget_clampedRGB_two (a b : Buf) :
    bget (clampedRGB a b) 2 = clamp (bget a 2) 0 1 := by
  unfold clampedRGB; rw [bget_write3_two]

theorem clamp01_diff_le (ep x : ℚ) (hep : 0 ≤ ep) (h0 : -ep ≤ x)
    (h1 : x ≤ 1 + ep) : |clamp x 0 1 - x| ≤ ep := by
  unfold clamp
  rw [abs_le]
  rcases le_total x 0 with hx | hx
  · rw [min_eq_left (le_trans hx zero_le_one), max_eq_right hx]
    constructor <;> linarith
  · rcases le_total x 1 with hx1 | hx1
    · rw [min_eq_left hx1, max_eq_left hx]
      constructor <;> linarith
    · rw [min_eq_right hx1, max_eq_left (by linarith : (0 : ℚ) ≤ 1)]
      constructor <;> linarith

theorem isRGBInGamut_bounds (b : Buf) (ep : ℚ)
    (h : isRGBInGamut b ep = true) :
    (-ep ≤ bget b 0 ∧ bget b 0 ≤ 1 + ep) ∧
    (-ep ≤ bget b 1 ∧ bget b 1 ≤ 1 + ep) ∧
    (-ep ≤ bget b 2 ∧ bget b 2 ≤ 1 + ep) := by
  simp only [isRGBInGamut, Bool.and_eq_true, decide_eq_true_eq] at h
  tauto

-- ### Claim C7

/-- C7: when the input, converted into the gamut's RGB space, already
lies inside the gamut bounds (each channel within `[-ep, 1+ep]` for the
default ε = `GAMUT_EPSILON`), `gamutMapOKLCH` performs no mapping
computation — the result is the same for every mapping variant and every
supplied cusp, and equals the plain conversion of the unchanged input to
the requested target space (`gamutMapFinish`); when the target is the
gamut's own space, every channel of the result is within ε of that
conversion. -/
theorem gamutMapOKLCH_in_gamut_skips_mapping (P : Prims)
    (findCuspF : ℚ → ℚ → ℚ × ℚ) (oklch : Buf) (gamut : ColorGamut)
    (targetSpace : ColorSpace) (out : Buf) (rgb : Buf)
    (hconv : convert P.cbrt oklch (some (OKLCH P)) (some gamut.space) vec3 =
      .ok rgb)
    (hin : isRGBInGamut rgb GAMUT_EPSILON = true) :
    (∀ mapping cusp0,
      gamutMapOKLCH P findCuspF oklch gamut targetSpace out mapping cusp0 =
        gamutMapFinish P oklch gamut targetSpace out) ∧
    (targetSpace = gamut.space →
      ∀ mapping cusp0 res,
        gamutMapOKLCH P findCuspF oklch gamut targetSpace out mapping cusp0 =
          .ok res →
        ∀ i, i < 3 → |bget res i - bget rgb i| ≤ GAMUT_EPSILON) := by
  have hskip : ∀ mapping cusp0,
      gamutMapOKLCH P findCuspF oklch gamut targetSpace out mapping cusp0 =
        gamutMapFinish P oklch gamut targetSpace out := by
    intro mapping cusp0
    unfold gamutMapOKLCH
    rw [hconv]
    dsimp only
    rw [if_pos hin]
  refine ⟨hskip, ?_⟩
  intro htgt mapping cusp0 res hres
  subst htgt
  rw [hskip mapping cusp0] at hres
  have hfac := convert_factor P.cbrt oklch (some (OKLCH P))
    (some gamut.space) vec3
  rw [hconv] at hfac
  cases hp : convertP P.cbrt (read3 oklch) (some (OKLCH P))
      (some gamut.space) with
  | error e =>
    rw [hp] at hfac
    obtain ⟨m, w⟩ := e
    exact absurd hfac.symm (by simp [wrapE])
  | ok v =>
    rw [hp] at hfac
    simp only [wrapE] at hfac
    have hrgb : rgb = write3 vec3 v := by
      injection hfac with h1
    unfold gamutMapFinish at hres
    rw [convert_factor, hp] at hres
    simp only [wrapE] at hres
    rw [if_pos (refEq_self (baseOf gamut.space))] at hres
    injection hres with hres1
    obtain ⟨⟨ha0, hb0⟩, ⟨ha1, hb1⟩, ⟨ha2, hb2⟩⟩ := isRGBInGamut_bounds rgb
      GAMUT_EPSILON hin
    rw [hrgb, bget_write3_zero] at ha0 hb0
    rw [hrgb, bget_write3_one] at ha1 hb1
    rw [hrgb, bget_write3_two] at ha2 hb2
    intro i hi
    have hi3 : i = 0 ∨ i = 1 ∨ i = 2 := by omega
    have hep : (0 : ℚ) ≤ GAMUT_EPSILON := by norm_num [GAMUT_EPSILON]
    rcases hi3 with rfl | rfl | rfl
    · rw [← hres1, hrgb, bget_clampedRGB_zero, bget_write3_zero,
        bget_write3_zero]
      exact clamp01_diff_le _ _ hep ha0 hb0
    · rw [← hres1, hrgb, bget_clampedRGB_one, bget_write3_one,
        bget_write3_one]
      exact clamp01_diff_le _ _ hep ha1 hb1
    · rw [← hres1, hrgb, bget_clampedRGB_two, bget_write3_two,
        bget_write3_two]
      exact clamp01_diff_le _ _ hep ha2 hb2

-- ### Concrete fixtures and witnesses

/-- A trivial instantiation of the runtime primitives, used by the
concrete witnesses (their values are irrelevant to the properties). -/
def trivPrims : Prims :=
  ⟨fun _ _ => 0, fun q => q, fun _ => 1, fun _ => 0, fun q => q,
   fun _ _ => 0, fun v => v, fun v => v, fun v => v, fun v => v⟩

/-- A gamma-style test source space with a base (witness fixture). -/
def wSrcBase : ColorSpace :=
  .mk 101 "wsrcbase" (some nominalMat) none none none none none
    (some ⟨nominalMat, nominalMat⟩) none none none

def wSrc : ColorSpace :=
  .mk 100 "wsrc" none none none none none none none
    (some wSrcBase) (some (fun v => v)) (some (fun v => v))

def wTgtBase : ColorSpace :=
  .mk 103 "wtgtbase" none (some nominalMat) none none none none
    none none none none

def wTgt : ColorSpace :=
  .mk 102 "wtgt" none none none none none none none
    (some wTgtBase) (some (fun v => v)) (some (fun v => v))

theorem convert_routes_through_xyz_hub_witness :
    refEq wSrc wTgt = false ∧
    convert (fun q => q) [1, 2, 3] (some wSrc) (some wTgt) [0, 0, 0] =
      .ok (write3 [0, 0, 0] (xyzRouteSpec wSrc wTgt (read3 [1, 2, 3]))) :=
  ⟨by decide,
   convert_routes_through_xyz_hub (fun q => q) [1, 2, 3] [0, 0, 0] wSrc wTgt
     (by decide) (fun _ => rfl) (fun _ => rfl) (fun _ => by decide)
     rfl rfl (by decide) (by decide) (by decide)
     (fun _ => Or.inr rfl) (fun _ => Or.inr rfl)⟩

/-- Deep-chain fixture spaces for the C5 witness. -/
def wDeep2 : ColorSpace :=
  .mk 110 "wd2" none none none none none none none none none none

def wDeep1 : ColorSpace :=
  .mk 111 "wd1" none none none none none none none
    (some wDeep2) (some (fun v => v)) (some (fun v => v))

def wDeep0 : ColorSpace :=
  .mk 112 "wd0" none none none none none none none
    (some wDeep1) (some (fun v => v)) (some (fun v => v))

def wPlain : ColorSpace :=
  .mk 113 "wplain" none none none none none none none none none none

theorem convert_rejects_deep_base_witness :
    refEq wDeep0 wPlain = false ∧
    ∃ e buf, convert (fun q => q) [1, 2, 3] (some wDeep0) (some wPlain)
      [0, 0, 0] = .error (e, buf) :=
  ⟨by decide,
   convert_rejects_deep_base (fun q => q) [1, 2, 3] [0, 0, 0] wDeep0 wPlain
     (by decide) (Or.inl ⟨wDeep1, rfl, rfl⟩)⟩

/-- Fixture spaces for the C6 witness: a source lacking any path to XYZ
and a target exposing `fromXYZ_M`. -/
def w6src : ColorSpace :=
  .mk 120 "w6s" none none none none none none none none none none

def w6tgt : ColorSpace :=
  .mk 121 "w6t" none (some nominalMat) none none none none none
    none none none

theorem convert_missing_hub_matrix_errors_witness :
    w6src.toXYZ_M = none ∧
    ∃ b, convert (fun q => q) [1, 2, 3] (some w6src) (some w6tgt) [0, 0, 0] =
      .error ("no toXYZ or toXYZ_M on " ++ "w6s", b) :=
  ⟨rfl,
   (convert_missing_hub_matrix_errors (fun q => q) [1, 2, 3] [0, 0, 0]
     w6src w6tgt (by decide) (fun h => absurd h (by decide)) rfl rfl
     (by decide)).1
     ⟨by decide, by decide, rfl, rfl, fun h => absurd h (by decide)⟩⟩

/-- Gamut-space fixture for the C7 witness: a direct LMS bridge from
OKLab. -/
def wGamutSpace : ColorSpace :=
  .mk 130 "wg" none none none (some nominalMat) none none none
    none none none

theorem gamutMapOKLCH_in_gamut_skips_mapping_witness :
    isRGBInGamut [1/8, 0, 0] GAMUT_EPSILON = true ∧
    gamutMapOKLCH trivPrims (fun _ _ => (0, 0)) [1/2, 0, 0] ⟨wGamutSpace⟩
        wGamutSpace [0, 0, 0] (fun v _ => v) none =
      gamutMapFinish trivPrims [1/2, 0, 0] ⟨wGamutSpace⟩ wGamutSpace
        [0, 0, 0] :=
  ⟨by norm_num [isRGBInGamut, bget, List.getD, GAMUT_EPSILON],
   (gamutMapOKLCH_in_gamut_skips_mapping trivPrims (fun _ _ => (0, 0))
     [1/2, 0, 0] ⟨wGamutSpace⟩ wGamutSpace [0, 0, 0] [1/8, 0, 0]
     (by norm_num [convert, descendSource, hubRoute, OKLab_to, transform,
       cubed3, vec3Copy, applyFn3, write3, bset, read3, bget, List.getD,
       refEq, OKLCH, OKLab, wGamutSpace, OKLCHToOKLab, trivPrims,
       OKLab_to_LMS_M, nominalMat, applyMat, dot3, cube3, map3, vec3,
       ColorSpace.ref, ColorSpace.id, ColorSpace.base, ColorSpace.toBase,
       ColorSpace.fromLMS_M])
     (by norm_num [isRGBInGamut, bget, List.getD, GAMUT_EPSILON])).1
     (fun v _ => v) none⟩

theorem convert_frame_effect_witness :
    (3 ≤ 3 ∧
      bget (resBuf (convert (fun q => q) [1, 2, 3, 4] (some wPlain)
        (some wPlain) [5, 6, 7, 8])) 3 = bget [5, 6, 7, 8] 3) ∧
    convert (fun q => q) [1, 2, 3, 4] (some wPlain) (some wPlain)
        [5, 6, 7, 8] =
      convert (fun q => q) [1, 2, 3] (some wPlain) (some wPlain)
        [5, 6, 7, 8] :=
  ⟨⟨le_refl 3,
    (convert_frame_effect (fun q => q) [1, 2, 3, 4] (some wPlain)
      (some wPlain) [5, 6, 7, 8]).1 3 (le_refl 3)⟩,
   (convert_frame_effect (fun q => q) [1, 2, 3, 4] (some wPlain)
     (some wPlain) [5, 6, 7, 8]).2⟩

theorem convert_error_overwrites_out_witness :
    convert (fun q => q) [1, 2, 3] none none [9, 9, 9, 9] =
      .error ("must specify a fromSpace", vec3Copy [1, 2, 3] [9, 9, 9, 9]) ∧
    ∃ v, vec3Copy [1, 2, 3] ([9, 9, 9, 9] : Buf) = write3 [9, 9, 9, 9] v ∧
      ∀ b2, convert (fun q => q) [1, 2, 3] none none [7, 7, 7] =
        .error ("must specify a fromSpace", b2) → b2 = write3 [7, 7, 7] v :=
  ⟨(convert_error_overwrites_out (fun q => q) [1, 2, 3] [9, 9, 9, 9]).1 none,
   (convert_error_overwrites_out (fun q => q) [1, 2, 3] [9, 9, 9, 9]).2.2
     none none "must specify a fromSpace"
     (vec3Copy [1, 2, 3] [9, 9, 9, 9]) [7, 7, 7]
     ((convert_error_overwrites_out (fun q => q) [1, 2, 3] [9, 9, 9, 9]).1
       none)⟩
